import Mathlib

/-!
Verification development for the `button` gesture-classification library
(`src/button.c`, `src/include/button.h`).

The library classifies sampled GPIO levels into gestures (single, double,
pressed, hold, long) with a per-button finite state machine driven by a
shared periodic timer, a registry of button instances, and a dispatcher
queue plus worker task.

Conventions of the embedding:
* The sampled GPIO level is a natural number; the buttons are wired with a
  pull-up, so the *active* (pressed) level is `0` and the *inactive*
  (released) level is `1`, matching the literal compare values passed to
  `fsm_set_events` in `fsm_set`.
* C `uint32_t` quantities are modelled as `Nat`; the one place where
  wrap-around could matter (`button_set_timing`, long case) goes through an
  explicit modular subtraction `u32_sub`.
* Function pointers and `void *` arguments are modelled as numeric handles
  (`Option Nat` for a nullable function pointer, `Nat` for the argument,
  with `0` standing for `NULL`).
* The FreeRTOS queue is modelled as a `List` with bounded non-blocking
  push-to-front / push-to-back and pop-from-front, per the external
  collaborator contract in the spec (§6).
-/

/-- Error codes of `button_err_t` in `src/include/button.h`. -/
inductive button_err where
  | not_init
  | num_max
  | invalid_param
  | no_mem
  | fail
  | ok
deriving DecidableEq, Repr

/-- FSM states of `button_state_t` in `src/include/button.h`. -/
inductive button_state where
  | idle
  | debounce
  | pressed
  | hold
  | wait
  | single
  | double
  | long
deriving DecidableEq, Repr

/-- Gesture kinds of `button_type_t` in `src/include/button.h`. -/
inductive button_type where
  | single
  | double
  | pressed
  | hold
  | long
deriving DecidableEq, Repr

/-- One registered callback (`button_action_t`): a nullable function
pointer and an opaque argument, both modelled as numeric handles. -/
structure button_action where
  fn : Option Nat
  arg : Nat
deriving DecidableEq, Repr

/-- The five action slots of `button_t.actions`, indexed by gesture kind. -/
structure button_actions where
  single : button_action
  double : button_action
  pressed : button_action
  hold : button_action
  long : button_action
deriving DecidableEq, Repr

/-- Read the action slot for a gesture kind (`me->actions[type]`). -/
def get_action (a : button_actions) : button_type → button_action
  | .single => a.single
  | .double => a.double
  | .pressed => a.pressed
  | .hold => a.hold
  | .long => a.long

/-- Write the action slot for a gesture kind (`me->actions[type] = ...`). -/
def set_action (a : button_actions) : button_type → button_action → button_actions
  | .single, v => { a with single := v }
  | .double, v => { a with double := v }
  | .pressed, v => { a with pressed := v }
  | .hold, v => { a with hold := v }
  | .long, v => { a with long := v }

/-- The five timing parameters of `button_cfg_t.timing`.  In the C code the
five fields are pointers into the timeout cells of specific transitions of
the button's FSM table; the table is therefore fully determined by these
five values, and the embedding stores the values and derives the table
(`fsm_set`). -/
structure button_timing_cfg where
  debounce_fw_ms : Nat
  debounce_bw_ms : Nat
  hold_ms : Nat
  wait_double_ms : Nat
  long_ms : Nat
deriving DecidableEq, Repr

/-- Compile-time constants from `src/button.c` (default configuration). -/
def BUTTON_DEBOUNCE_MS_DEFAULT : Nat := 40

def BUTTON_HOLD_MS_DEFAULT : Nat := 500

def BUTTON_WAIT_DOUBLE_MS_DEFAULT : Nat := 100

def BUTTON_LONG_MS_DEFAULT : Nat := 3000 - BUTTON_HOLD_MS_DEFAULT

def BUTTON_TICK_MS : Nat := 20

def BUTTON_NUM_MAX : Nat := 5

def BUTTON_QUEUE_LEN : Nat := 10

/-- The timing configuration installed by `fsm_set`: all four defaults. -/
def default_cfg : button_timing_cfg :=
  { debounce_fw_ms := BUTTON_DEBOUNCE_MS_DEFAULT
    debounce_bw_ms := BUTTON_DEBOUNCE_MS_DEFAULT
    hold_ms := BUTTON_HOLD_MS_DEFAULT
    wait_double_ms := BUTTON_WAIT_DOUBLE_MS_DEFAULT
    long_ms := BUTTON_LONG_MS_DEFAULT }

/-- One FSM transition: source and destination state, an optional level
guard (compare the sampled level with `eval_eq` against a constant) and a
timeout guard (elapsed time since entering the source state must be at
least `timeout`); the two guards combine with AND (`FSM_OP_AND`). -/
structure fsm_trans where
  src : button_state
  dst : button_state
  check : Option Nat
  timeout : Nat
deriving DecidableEq, Repr

/-- FSM instance: current state, the time the current state was entered,
and the transition table in priority order. -/
structure fsm_t where
  state : button_state
  entry_ms : Nat
  table : List fsm_trans
deriving DecidableEq, Repr

/-- Modelled from the spec: `fsm_init` (from the external `fsm.c`, which is
not under `src/`) puts the machine in the given initial state with an empty
transition table and records the current time as the state-entry time. -/
def fsm_init (s0 : button_state) (now : Nat) : fsm_t :=
  { state := s0, entry_ms := now, table := [] }

/-- Modelled from the spec: `fsm_add_transition` (from the external
`fsm.c`) appends a transition with a trivial guard (no level condition,
zero timeout, i.e. unconditional) to the table; transitions are evaluated
in the order they were added ("a fixed priority order per state, first
matching transition wins").  Only the table component of the machine is
touched, so the operation is modelled on the table. -/
def fsm_add_transition (t : List fsm_trans) (src dst : button_state) : List fsm_trans :=
  t ++ [{ src := src, dst := dst, check := none, timeout := 0 }]

/-- Modelled from the spec: `fsm_set_events` (from the external `fsm.c`)
installs a level-equality condition and/or a timeout on the transition just
added, i.e. on the last entry of the table (`button.c` always passes the
pointer returned by the preceding `fsm_add_transition`, the condition
`eval_eq` and `FSM_OP_AND`). -/
def fsm_set_events_last (check : Option Nat) (timeout : Nat) : List fsm_trans → List fsm_trans
  | [] => []
  | [tr] => [{ tr with check := check, timeout := timeout }]
  | tr :: rest => tr :: fsm_set_events_last check timeout rest

/-- `fsm_set` from `src/button.c` (lines 332-407): build the button's FSM —
`fsm_init` with initial state `Idle` at the current time, then the twelve
transitions added in program order.  The tunable timeout cells are exactly
the ones the C code exposes through the `cfg.timing` pointers, so they are
read from the `button_timing_cfg` record (at `button_init` time that
record holds the defaults). -/
def fsm_set (cfg : button_timing_cfg) (now : Nat) : fsm_t :=
  let t := (fsm_init .idle now).table
  let t := fsm_add_transition t .idle .debounce
  let t := fsm_set_events_last (some 0) 0 t
  let t := fsm_add_transition t .debounce .idle
  let t := fsm_set_events_last (some 1) cfg.debounce_bw_ms t
  let t := fsm_add_transition t .debounce .pressed
  let t := fsm_set_events_last (some 0) cfg.debounce_fw_ms t
  let t := fsm_add_transition t .pressed .hold
  let t := fsm_set_events_last none cfg.hold_ms t
  let t := fsm_add_transition t .pressed .wait
  let t := fsm_set_events_last (some 1) 0 t
  let t := fsm_add_transition t .hold .long
  let t := fsm_set_events_last (some 1) cfg.long_ms t
  let t := fsm_add_transition t .hold .single
  let t := fsm_set_events_last (some 1) 0 t
  let t := fsm_add_transition t .wait .single
  let t := fsm_set_events_last none cfg.wait_double_ms t
  let t := fsm_add_transition t .wait .double
  let t := fsm_set_events_last (some 0) 0 t
  let t := fsm_add_transition t .long .idle
  let t := fsm_add_transition t .single .idle
  let t := fsm_add_transition t .double .idle
  let t := fsm_set_events_last (some 1) 0 t
  { fsm_init .idle now with table := t }

/-- The transition table of a button as a function of its timing values. -/
def fsm_table (cfg : button_timing_cfg) : List fsm_trans :=
  (fsm_set cfg 0).table

/-- The spec's transition table (§4.1), rows in the spec's listed order,
written down independently of `fsm_set` for comparison: active level is
`0`, inactive level is `1`. -/
def spec_transition_table (cfg : button_timing_cfg) : List fsm_trans :=
  [ { src := .idle, dst := .debounce, check := some 0, timeout := 0 },
    { src := .debounce, dst := .pressed, check := some 0, timeout := cfg.debounce_fw_ms },
    { src := .debounce, dst := .idle, check := some 1, timeout := cfg.debounce_bw_ms },
    { src := .pressed, dst := .hold, check := none, timeout := cfg.hold_ms },
    { src := .pressed, dst := .wait, check := some 1, timeout := 0 },
    { src := .hold, dst := .long, check := some 1, timeout := cfg.long_ms },
    { src := .hold, dst := .single, check := some 1, timeout := 0 },
    { src := .wait, dst := .double, check := some 0, timeout := 0 },
    { src := .wait, dst := .single, check := none, timeout := cfg.wait_double_ms },
    { src := .long, dst := .idle, check := none, timeout := 0 },
    { src := .single, dst := .idle, check := none, timeout := 0 },
    { src := .double, dst := .idle, check := some 1, timeout := 0 } ]

/-- Guard evaluation: the transition applies to the current state and both
the level condition (if present) and the timeout condition hold. -/
def trans_enabled (tr : fsm_trans) (s : button_state) (level elapsed : Nat) : Bool :=
  decide (tr.src = s) &&
    (match tr.check with
     | none => true
     | some v => decide (level = v)) &&
    decide (tr.timeout ≤ elapsed)

/-- First enabled transition of the table, in priority (list) order. -/
def fsm_find : List fsm_trans → button_state → Nat → Nat → Option fsm_trans
  | [], _, _, _ => none
  | tr :: rest, s, level, elapsed =>
    if trans_enabled tr s level elapsed then some tr
    else fsm_find rest s level elapsed

/-- Entry actions registered by `fsm_set` via `fsm_register_state_actions`:
entering `Single`/`Double`/`Pressed`/`Long` emits the corresponding
gesture. -/
def entry_gesture : button_state → Option button_type
  | .single => some .single
  | .double => some .double
  | .pressed => some .pressed
  | .long => some .long
  | _ => none

/-- Exit actions registered by `fsm_set`: leaving `Hold` emits `Hold`. -/
def exit_gesture : button_state → Option button_type
  | .hold => some .hold
  | _ => none

/-- Modelled from the spec: `fsm_run` (from the external `fsm.c`) evaluates
the current state's transitions in priority order, takes the first one
whose guard is satisfied — firing the exit action of the source state and
the entry action of the destination state, and re-stamping the state-entry
time — and leaves the state unchanged when no guard matches.  Returns the
updated machine and the gestures classified on this tick. -/
def fsm_run (f : fsm_t) (level now : Nat) : fsm_t × List button_type :=
  match fsm_find f.table f.state level (now - f.entry_ms) with
  | none => (f, [])
  | some tr =>
    ({ f with state := tr.dst, entry_ms := now },
      (exit_gesture tr.src).toList ++ (entry_gesture tr.dst).toList)

/-- Drive one button FSM with a sequence of sampled levels, one tick every
`BUTTON_TICK_MS` milliseconds starting at time `now` (the per-button body
of `timer_handler`), collecting all classified gestures in order. -/
def run_levels (f : fsm_t) (now : Nat) : List Nat → fsm_t × List button_type
  | [] => (f, [])
  | l :: ls =>
    let r1 := fsm_run f l now
    let r2 := run_levels r1.1 (now + BUTTON_TICK_MS) ls
    (r2.1, r1.2 ++ r2.2)

/-- A button instance (`button_t` in `src/include/button.h`).  The field
`addr` models the address of the C struct (pointer identity, used by the
`button_list[me->id] != me` check in `button_deinit`).  The FSM is kept as
its current state and state-entry time; the transition table is determined
by `cfg` (see `button_timing_cfg`) and recovered with `fsm_table cfg`. -/
structure button_t where
  gpio_num : Nat
  gpio_port : Nat
  gpio_level : Nat
  id : Nat
  addr : Nat
  cfg : button_timing_cfg
  fsm_state : button_state
  fsm_entry_ms : Nat
  actions : button_actions
deriving DecidableEq, Repr

/-- A dispatch message (`button_msg_t`): a snapshot of the button id and
of the action slot, taken when the gesture is classified. -/
structure button_msg where
  id : Nat
  action : button_action
deriving DecidableEq, Repr

/-- The module-level shared state of `src/button.c`: the registry
(`button_num`, `button_list`, with the active buttons as a compacted
prefix, so the list holds exactly the first `button_num` array slots), and
the shared dispatcher resources (`button_queue_handle`,
`button_task_handle`, `button_timer_handle`, each modelled by a presence
flag, plus the queue contents). -/
structure registry_t where
  button_num : Nat
  button_list : List button_t
  queue_present : Bool
  task_present : Bool
  timer_present : Bool
  queue : List button_msg
deriving DecidableEq, Repr

/-- The shared state before any button is registered: empty registry, no
shared resources. -/
def registry_empty : registry_t :=
  { button_num := 0, button_list := [], queue_present := false,
    task_present := false, timer_present := false, queue := [] }

/-- Dispatcher queue capacity: `BUTTON_QUEUE_LEN * BUTTON_NUM_MAX`
(`xQueueCreate` in `dispatcher_init`). -/
def queue_capacity : Nat := BUTTON_QUEUE_LEN * BUTTON_NUM_MAX

/-- Non-blocking bounded push to the back (`xQueueSendToBack` with zero
timeout, per the spec's queue-primitive contract): when the queue is full
the message is dropped and the queue is unchanged. -/
def queue_send_back (q : List button_msg) (m : button_msg) : List button_msg :=
  if q.length < queue_capacity then q ++ [m] else q

/-- Non-blocking bounded push to the front (`xQueueSendToFront` with zero
timeout): when the queue is full the message is dropped. -/
def queue_send_front (q : List button_msg) (m : button_msg) : List button_msg :=
  if q.length < queue_capacity then m :: q else q

/-- `dispatcher_send` from `src/button.c` (lines 489-501): snapshot the
button id and the action slot of the classified gesture; when a callback
is registered, push `Hold` gestures to the back of the queue and every
other kind to the front; when no callback is registered, touch nothing. -/
def dispatcher_send (q : List button_msg) (b : button_t) (t : button_type) : List button_msg :=
  let cmd : button_msg := { id := b.id, action := get_action b.actions t }
  match cmd.action.fn with
  | none => q
  | some _ => if t = .hold then queue_send_back q cmd else queue_send_front q cmd

/-- One iteration of `dispatcher_task` (lines 436-446) on a non-empty
queue: pop the front message and invoke its callback when the function
pointer is non-null.  Returns the list of performed invocations (function
handle, argument) and the remaining queue; on an empty queue the worker
blocks, modelled as no work. -/
def dispatcher_task_step (q : List button_msg) : List (Nat × Nat) × List button_msg :=
  match q with
  | [] => ([], [])
  | m :: rest =>
    (match m.action.fn with
     | none => []
     | some f => [(f, m.action.arg)], rest)

/-- Outcome of the external `gpio_config` call inside `generic_gpio_init`,
supplied as an oracle: `ESP_OK`, `ESP_ERR_INVALID_ARG`, or any other
failure. -/
inductive esp_err where
  | ok
  | invalid_arg
  | other_fail
deriving DecidableEq, Repr

/-- `generic_gpio_init` from `src/button.c` (lines 504-524): map the GPIO
driver's result onto the button error taxonomy. -/
def generic_gpio_init (res : esp_err) : button_err :=
  match res with
  | .invalid_arg => .invalid_param
  | .other_fail => .fail
  | .ok => .ok

/-- Oracle outcomes of the external allocation and GPIO primitives used by
one `button_init` call. -/
structure alloc_env where
  gpio_result : esp_err
  gpio_level : Nat
  queue_ok : Bool
  task_ok : Bool
  timer_ok : Bool
deriving DecidableEq, Repr

/-- `dispatcher_init` from `src/button.c` (lines 448-487): create the
queue, the worker task and the periodic timer, each only if not already
present, returning `no_mem` at the first allocation failure (resources
created earlier in the same call are kept). -/
def dispatcher_init (env : alloc_env) (s : registry_t) : button_err × registry_t :=
  if !s.queue_present && !env.queue_ok then (.no_mem, s)
  else
    let s1 := if s.queue_present then s else { s with queue_present := true, queue := [] }
    if !s1.task_present && !env.task_ok then (.no_mem, s1)
    else
      let s2 := if s1.task_present then s1 else { s1 with task_present := true }
      if !s2.timer_present && !env.timer_ok then (.no_mem, s2)
      else
        let s3 := if s2.timer_present then s2 else { s2 with timer_present := true }
        (.ok, s3)

/-- The fully initialized button produced by a successful `button_init`
body: id and GPIO fields assigned, level sampled, all five action slots
cleared, FSM table built by `fsm_set` with the default timings, initial
state `Idle` entered at the current time. -/
def init_button (b0 : button_t) (id gpio_num gpio_port level now : Nat) : button_t :=
  { b0 with
    id := id
    gpio_num := gpio_num
    gpio_port := gpio_port
    gpio_level := level
    cfg := default_cfg
    fsm_state := .idle
    fsm_entry_ms := now
    actions :=
      { single := { fn := none, arg := 0 }
        double := { fn := none, arg := 0 }
        pressed := { fn := none, arg := 0 }
        hold := { fn := none, arg := 0 }
        long := { fn := none, arg := 0 } } }

/-- `button_init` from `src/button.c` (lines 137-186).  `b0` is the
caller-supplied struct (its `addr` models the struct's address), `env`
supplies the outcomes of the external GPIO and allocation calls, `now` is
the current time.  Capacity check, slot assignment, GPIO configuration
with rollback on failure, field initialization, `fsm_set`, and
`dispatcher_init` (whose failure is reported as `fail` without any
rollback of the registry entry). -/
def button_init (s : registry_t) (b0 : button_t) (gpio_num gpio_port : Nat)
    (env : alloc_env) (now : Nat) : button_err × registry_t :=
  if s.button_num ≥ BUTTON_NUM_MAX then (.num_max, s)
  else
    let id := s.button_num
    let s1 := { s with
      button_num := id + 1
      button_list := s.button_list ++ [{ b0 with id := id }] }
    match generic_gpio_init env.gpio_result with
    | .invalid_param => (.invalid_param, { s1 with button_num := id, button_list := s.button_list })
    | .fail => (.fail, { s1 with button_num := id, button_list := s.button_list })
    | _ =>
      let b1 := init_button b0 id gpio_num gpio_port env.gpio_level now
      let s2 := { s1 with button_list := s.button_list ++ [b1] }
      let r := dispatcher_init env s2
      if r.1 ≠ .ok then (.fail, r.2) else (.ok, r.2)

/-- Renumber a list of buttons with consecutive ids starting at `i`
(the `button_list[i]->id = i` assignments of the `button_deinit` shift
loop). -/
def renumber_from : Nat → List button_t → List button_t
  | _, [] => []
  | i, b :: bs => { b with id := i } :: renumber_from (i + 1) bs

/-- `button_deinit` from `src/button.c` (lines 191-225): validate the
handle (non-null, claimed slot within the active range, slot actually
holds this struct — pointer comparison, modelled via `addr`), shift the
subsequent buttons one slot left renumbering their ids, clear the last
slot, and, only when the registry becomes empty, stop and release the
shared timer, task and queue. -/
def button_deinit (s : registry_t) (h : Option button_t) : button_err × registry_t :=
  match h with
  | none => (.invalid_param, s)
  | some me =>
    if me.id ≥ s.button_num then (.invalid_param, s)
    else if (s.button_list[me.id]?).map button_t.addr ≠ some me.addr then (.invalid_param, s)
    else
      let l1 := s.button_list.take me.id ++ renumber_from me.id (s.button_list.drop (me.id + 1))
      let n1 := s.button_num - 1
      if n1 = 0 then
        (.ok,
          { s with
            button_num := 0
            button_list := l1
            queue_present := false
            task_present := false
            timer_present := false
            queue := [] })
      else (.ok, { s with button_num := n1, button_list := l1 })

/-- `button_register_action` from `src/button.c` (lines 230-251): reject a
null callback (the kind range check always passes for a value of the
`button_type` enumeration), otherwise store function and argument. -/
def button_register_action (b : button_t) (t : button_type) (fn : Option Nat) (arg : Nat) :
    button_err × button_t :=
  match fn with
  | none => (.invalid_param, b)
  | some _ => (.ok, { b with actions := set_action b.actions t { fn := fn, arg := arg } })

/-- `button_unregister_action` from `src/button.c` (lines 256-271): clear
both fields of the slot. -/
def button_unregister_action (b : button_t) (t : button_type) : button_err × button_t :=
  (.ok, { b with actions := set_action b.actions t { fn := none, arg := 0 } })

/-- Wrapping subtraction of two `uint32_t` values (`ms - *hold_ms` in the
long case of `button_set_timing`). -/
def u32_sub (a b : Nat) : Nat := (a + (4294967296 - b % 4294967296)) % 4294967296

/-- `button_set_timing` from `src/button.c` (lines 276-322).  The kind is
the numeric value of the `button_timing_t` enumeration (0 debounce,
1 hold, 2 long, 3 wait-double; anything else hits the `default` branch).
Writes go through the `cfg.timing` pointers straight into the FSM table's
timeout cells, i.e. into the corresponding `button_timing_cfg` fields; the
debounce case writes the forward and the backward cell alike. -/
def button_set_timing (b : button_t) (timing : Nat) (ms : Nat) : button_err × button_t :=
  if timing = 0 then
    if ms > 100 ∨ ms < BUTTON_TICK_MS * 2 then (.invalid_param, b)
    else (.ok, { b with cfg := { b.cfg with debounce_fw_ms := ms, debounce_bw_ms := ms } })
  else if timing = 1 then
    if ms > 1000 ∨ ms < 100 then (.invalid_param, b)
    else (.ok, { b with cfg := { b.cfg with hold_ms := ms } })
  else if timing = 2 then
    if ms < 1000 ∨ ms > 10000 then (.invalid_param, b)
    else (.ok, { b with cfg := { b.cfg with long_ms := u32_sub ms b.cfg.hold_ms } })
  else if timing = 3 then
    if ms > 500 ∨ ms < 50 then (.invalid_param, b)
    else (.ok, { b with cfg := { b.cfg with wait_double_ms := ms } })
  else (.invalid_param, b)

/-- The per-button body of `timer_handler` (lines 409-415): re-sample the
level and run one FSM step; returns the updated button and the gestures
classified on this tick. -/
def button_tick (b : button_t) (level now : Nat) : button_t × List button_type :=
  let r := fsm_run { state := b.fsm_state, entry_ms := b.fsm_entry_ms, table := fsm_table b.cfg }
    level now
  ({ b with gpio_level := level, fsm_state := r.1.state, fsm_entry_ms := r.1.entry_ms }, r.2)

/-- All button states reachable through the public API and the sampling
tick: freshly initialized, or obtained from a reachable state by
`button_set_timing`, `button_register_action`, `button_unregister_action`,
or one tick of `timer_handler`. -/
inductive button_reachable : button_t → Prop
  | init_b (b0 : button_t) (id gpio_num gpio_port level now : Nat) :
      button_reachable (init_button b0 id gpio_num gpio_port level now)
  | set_t (b : button_t) (timing ms : Nat) (h : button_reachable b) :
      button_reachable (button_set_timing b timing ms).2
  | reg (b : button_t) (t : button_type) (fn : Option Nat) (arg : Nat)
      (h : button_reachable b) : button_reachable (button_register_action b t fn arg).2
  | unreg (b : button_t) (t : button_type) (h : button_reachable b) :
      button_reachable (button_unregister_action b t).2
  | tick (b : button_t) (level now : Nat) (h : button_reachable b) :
      button_reachable (button_tick b level now).1

/-! ### Concrete sample data used by witnesses and counterexamples -/

/-- Five cleared action slots. -/
def no_actions : button_actions :=
  { single := { fn := none, arg := 0 }
    double := { fn := none, arg := 0 }
    pressed := { fn := none, arg := 0 }
    hold := { fn := none, arg := 0 }
    long := { fn := none, arg := 0 } }

/-- A sample initialized button. -/
def sample_button : button_t :=
  { gpio_num := 4, gpio_port := 0, gpio_level := 1, id := 0, addr := 1000,
    cfg := default_cfg, fsm_state := .idle, fsm_entry_ms := 0, actions := no_actions }

/-- Oracle where every external call succeeds. -/
def env_all_ok : alloc_env :=
  { gpio_result := .ok, gpio_level := 1, queue_ok := true, task_ok := true, timer_ok := true }

/-- Oracle where the dispatcher queue allocation fails. -/
def env_queue_fail : alloc_env :=
  { gpio_result := .ok, gpio_level := 1, queue_ok := false, task_ok := true, timer_ok := true }

/-- A registry holding the configured maximum of five buttons. -/
def full_registry : registry_t :=
  { button_num := 5
    button_list :=
      [ { sample_button with id := 0, addr := 1000 },
        { sample_button with id := 1, addr := 1001 },
        { sample_button with id := 2, addr := 1002 },
        { sample_button with id := 3, addr := 1003 },
        { sample_button with id := 4, addr := 1004 } ]
    queue_present := true, task_present := true, timer_present := true, queue := [] }

/-- A registry holding two buttons. -/
def two_registry : registry_t :=
  { button_num := 2
    button_list :=
      [ { sample_button with id := 0, addr := 1000 },
        { sample_button with id := 1, addr := 1001 } ]
    queue_present := true, task_present := true, timer_present := true, queue := [] }

/-- A button with only a `Hold` callback registered. -/
def b_hold_only : button_t :=
  { sample_button with actions := { no_actions with hold := { fn := some 7, arg := 3 } } }

/-- A button with callbacks registered for `Pressed` and `Single`. -/
def b_pressed_single : button_t :=
  { sample_button with
    actions :=
      { no_actions with
        pressed := { fn := some 1, arg := 10 }
        single := { fn := some 2, arg := 20 } } }

/-! ### The table built by `fsm_set` -/

/-- The table built by `fsm_set`, spelled out as a list literal in the
program order of the `fsm_add_transition` calls of `src/button.c`. -/
def code_transition_table (cfg : button_timing_cfg) : List fsm_trans :=
  [ { src := .idle, dst := .debounce, check := some 0, timeout := 0 },
    { src := .debounce, dst := .idle, check := some 1, timeout := cfg.debounce_bw_ms },
    { src := .debounce, dst := .pressed, check := some 0, timeout := cfg.debounce_fw_ms },
    { src := .pressed, dst := .hold, check := none, timeout := cfg.hold_ms },
    { src := .pressed, dst := .wait, check := some 1, timeout := 0 },
    { src := .hold, dst := .long, check := some 1, timeout := cfg.long_ms },
    { src := .hold, dst := .single, check := some 1, timeout := 0 },
    { src := .wait, dst := .single, check := none, timeout := cfg.wait_double_ms },
    { src := .wait, dst := .double, check := some 0, timeout := 0 },
    { src := .long, dst := .idle, check := none, timeout := 0 },
    { src := .single, dst := .idle, check := none, timeout := 0 },
    { src := .double, dst := .idle, check := some 1, timeout := 0 } ]

lemma fsm_set_events_singleton (c : Option Nat) (k : Nat) (x : fsm_trans) :
    fsm_set_events_last c k [x] = [{ x with check := c, timeout := k }] := rfl

lemma fsm_set_events_cons2 (c : Option Nat) (k : Nat) (y z : fsm_trans) (zs : List fsm_trans) :
    fsm_set_events_last c k (y :: z :: zs) = y :: fsm_set_events_last c k (z :: zs) := rfl

lemma fsm_set_table_eq (cfg : button_timing_cfg) (now : Nat) :
    (fsm_set cfg now).table = code_transition_table cfg := by
  simp only [fsm_set, fsm_init, fsm_add_transition, fsm_set_events_cons2,
    fsm_set_events_singleton, code_transition_table, List.nil_append, List.cons_append,
    List.append_nil, List.singleton_append]

/-- The code's table holds exactly the twelve transitions of the spec's
table, merely listed in a different order within the `Debounce` and `Wait`
source states. -/
lemma code_table_perm_spec (cfg : button_timing_cfg) :
    (code_transition_table cfg).Perm (spec_transition_table cfg) :=
  List.Perm.cons _ ((List.Perm.swap _ _ _).trans
    (List.Perm.cons _ (List.Perm.cons _ (List.Perm.cons _ (List.Perm.cons _
      (List.Perm.cons _ (List.Perm.cons _ (List.Perm.swap _ _ _))))))))

/-! ### C1 -/

/-- C1, counterexample: with the default timings, a button in `Wait` whose
sampled level is active (0) on a tick where the elapsed time has reached
`wait_double_ms` (100 ms) moves to `Single`, not to `Double` as the claim
states: the code adds the `Wait → Single` timeout transition *before* the
`Wait → Double` level transition, and the first satisfied transition
wins. -/
theorem c1_wait_priority_counterexample :
    (fsm_run { state := .wait, entry_ms := 0, table := fsm_table default_cfg } 0 100).1.state
        = .single ∧
      button_state.single ≠ button_state.double := by
  exact ⟨by decide, by decide⟩

/-- C1, amended: the FSM table constructed by `fsm_set` consists exactly of
the twelve transitions of the spec's transition table (same sources,
destinations and guards, as a permutation), but the per-state priority
order is the program order of `src/button.c`, which lists `Wait → Single`
before `Wait → Double`; transitions are evaluated in that order with the
first satisfied transition taken, so for a button in `Wait` with the level
active on a tick where elapsed ≥ `wait_double_ms`, `Wait → Single` is
taken, not `Wait → Double`. -/
theorem c1_wait_priority_amended (cfg : button_timing_cfg) (n entry now : Nat)
    (h : cfg.wait_double_ms ≤ now - entry) :
    ((fsm_set cfg n).table).Perm (spec_transition_table cfg) ∧
      (fsm_run { state := .wait, entry_ms := entry, table := (fsm_set cfg n).table } 0 now).1.state
          = .single ∧
      (fsm_run { state := .wait, entry_ms := entry, table := (fsm_set cfg n).table } 0 now).2
          = [.single] := by
  have hfind : fsm_find (fsm_set cfg n).table .wait 0 (now - entry) =
      some { src := .wait, dst := .single, check := none, timeout := cfg.wait_double_ms } := by
    rw [fsm_set_table_eq]
    simp [code_transition_table, fsm_find, trans_enabled, h]
  refine ⟨fsm_set_table_eq cfg n ▸ code_table_perm_spec cfg, ?_, ?_⟩ <;>
    simp [fsm_run, hfind, exit_gesture, entry_gesture]

/-- C1 witness: the amended theorem applied at the default configuration,
entry time 0, current time 100. -/
theorem c1_wait_priority_amended_witness :
    ((fsm_set default_cfg 0).table).Perm (spec_transition_table default_cfg) ∧
      (fsm_run { state := .wait, entry_ms := 0, table := (fsm_set default_cfg 0).table }
          0 100).1.state = .single ∧
      (fsm_run { state := .wait, entry_ms := 0, table := (fsm_set default_cfg 0).table }
          0 100).2 = [.single] :=
  c1_wait_priority_amended default_cfg 0 0 100 (by decide)

/-! ### C2 -/

/-- The level samples of the spec's concrete scenario, one per 20 ms tick
starting at t = 20 ms: the level is active (0) during [0 ms, 120 ms),
inactive (1) during [120 ms, 170 ms), active during [170 ms, 230 ms) and
inactive afterwards, so the ticks at 20..100 ms sample active, the ticks
at 120..160 ms sample inactive, the ticks at 180..220 ms sample active,
and the remaining ticks sample inactive. -/
def c2_levels : List Nat :=
  [0, 0, 0, 0, 0, 1, 1, 1, 0, 0, 0, 1, 1, 1, 1, 1, 1, 1, 1]

/-- C2: with the default timings (tick 20 ms, debounce 40 ms, hold 500 ms,
wait-double 100 ms) and a button started in `Idle`, the scenario "active
120 ms, inactive 50 ms, active 60 ms, then inactive" classifies exactly
the gesture sequence [`Pressed`, `Double`] — in particular no `Single` —
and returns the FSM to `Idle`. -/
theorem c2_scenario_pressed_double :
    (run_levels (fsm_set default_cfg 0) 20 c2_levels).2 = [.pressed, .double] ∧
      (run_levels (fsm_set default_cfg 0) 20 c2_levels).1.state = .idle ∧
      button_type.single ∉ (run_levels (fsm_set default_cfg 0) 20 c2_levels).2 := by
  exact ⟨by decide, by decide, by decide⟩

/-! ### C8 -/

/-- C8: when the registry already holds `BUTTON_NUM_MAX` buttons, the next
`button_init` fails with the capacity error `num_max` and returns the
shared state — registry, count, and every existing button — exactly
unchanged. -/
theorem c8_init_at_capacity (s : registry_t) (b0 : button_t) (gpio_num gpio_port : Nat)
    (env : alloc_env) (now : Nat) (h : BUTTON_NUM_MAX ≤ s.button_num) :
    button_init s b0 gpio_num gpio_port env now = (.num_max, s) := by
  simp only [button_init]
  rw [if_pos h]

/-- C8 witness: the capacity theorem applied to a registry already holding
five buttons. -/
theorem c8_init_at_capacity_witness :
    BUTTON_NUM_MAX ≤ full_registry.button_num ∧
      button_init full_registry sample_button 4 0 env_all_ok 0 = (.num_max, full_registry) :=
  ⟨by decide, c8_init_at_capacity full_registry sample_button 4 0 env_all_ok 0 (by decide)⟩

/-! ### C5 -/

/-- C5, counterexample: two non-Hold gestures of the same button, a
`Pressed` classified on an earlier tick and a `Single` classified on a
later tick, both successfully enqueued (front-pushed) while the worker has
not yet run: the worker's first dequeue dispatches the `Single` callback
(handle 2), i.e. the *later* gesture, not the earlier `Pressed` (handle
1), because successive front-pushes are last-in-first-out. -/
theorem c5_front_order_counterexample :
    dispatcher_task_step
        (dispatcher_send (dispatcher_send [] b_pressed_single .pressed) b_pressed_single .single) =
      ([(2, 20)], [{ id := 0, action := { fn := some 1, arg := 10 } }]) ∧
      (2, 20) ≠ (1, 10) := by
  exact ⟨by decide, by decide⟩

/-- C5, amended: same-button events of the *Hold* priority class (pushed
to the back) are dequeued in tick order, but two front-pushed (non-Hold)
events that are simultaneously pending are dequeued in reverse tick order;
the worker always removes the head of the queue first. -/
theorem c5_queue_order_amended (q : List button_msg) (m1 m2 : button_msg)
    (hroom : q.length + 1 < queue_capacity) :
    queue_send_back (queue_send_back q m1) m2 = q ++ [m1, m2] ∧
      queue_send_front (queue_send_front q m1) m2 = m2 :: m1 :: q ∧
      ∀ rest : List button_msg, (dispatcher_task_step (m1 :: rest)).2 = rest := by
  have h1 : q.length < queue_capacity := by omega
  have h2 : (q ++ [m1]).length < queue_capacity := by simp; omega
  have h3 : (m1 :: q).length < queue_capacity := by simp; omega
  refine ⟨?_, ?_, ?_⟩
  · simp only [queue_send_back]
    rw [if_pos h1, if_pos h2]
    simp
  · simp only [queue_send_front]
    rw [if_pos h1, if_pos h3]
  · intro rest
    simp only [dispatcher_task_step]

/-- C5 witness: the amended theorem applied to the empty queue and two
concrete messages. -/
theorem c5_queue_order_amended_witness :
    ([] : List button_msg).length + 1 < queue_capacity ∧
      (queue_send_back (queue_send_back [] { id := 0, action := { fn := some 1, arg := 10 } })
          { id := 0, action := { fn := some 2, arg := 20 } } =
        [{ id := 0, action := { fn := some 1, arg := 10 } },
         { id := 0, action := { fn := some 2, arg := 20 } }] ∧
      queue_send_front (queue_send_front [] { id := 0, action := { fn := some 1, arg := 10 } })
          { id := 0, action := { fn := some 2, arg := 20 } } =
        [{ id := 0, action := { fn := some 2, arg := 20 } },
         { id := 0, action := { fn := some 1, arg := 10 } }] ∧
      ∀ rest : List button_msg,
        (dispatcher_task_step ({ id := 0, action := { fn := some 1, arg := 10 } } :: rest)).2
          = rest) :=
  ⟨by decide,
    c5_queue_order_amended [] { id := 0, action := { fn := some 1, arg := 10 } }
      { id := 0, action := { fn := some 2, arg := 20 } } (by decide)⟩

/-! ### C6 -/

/-- C6: for a classified gesture with a registered callback, the enqueue
pushes a `Hold` gesture to the back of the queue and every other kind to
the front; the queue is bounded by `BUTTON_QUEUE_LEN * BUTTON_NUM_MAX`
entries and, when full, the event is dropped silently with the queue
contents unchanged (`dispatcher_send` returns no error — it has no error
result at all). -/
theorem c6_enqueue_policy (q : List button_msg) (b : button_t) (t : button_type) (f : Nat)
    (hf : (get_action b.actions t).fn = some f) :
    (q.length < queue_capacity →
      (t = .hold →
        dispatcher_send q b t = q ++ [{ id := b.id, action := get_action b.actions t }]) ∧
      (t ≠ .hold →
        dispatcher_send q b t = { id := b.id, action := get_action b.actions t } :: q)) ∧
      (queue_capacity ≤ q.length → dispatcher_send q b t = q) ∧
      queue_capacity = BUTTON_QUEUE_LEN * BUTTON_NUM_MAX := by
  refine ⟨fun hroom => ⟨fun hh => ?_, fun hh => ?_⟩, fun hfull => ?_, rfl⟩
  · subst hh
    simp [dispatcher_send, hf, queue_send_back, hroom]
  · simp [dispatcher_send, hf, queue_send_front, hroom, hh]
  · have hno : ¬q.length < queue_capacity := by omega
    simp only [dispatcher_send, hf, queue_send_back, queue_send_front]
    split <;> simp [hno]

/-- C6 witness: the enqueue-policy theorem applied to a button with a
registered `Hold` callback and the empty queue. -/
theorem c6_enqueue_policy_witness :
    (get_action b_hold_only.actions .hold).fn = some 7 ∧
      ((([] : List button_msg).length < queue_capacity →
        (button_type.hold = .hold →
          dispatcher_send [] b_hold_only .hold =
            [] ++ [{ id := b_hold_only.id, action := get_action b_hold_only.actions .hold }]) ∧
        (button_type.hold ≠ .hold →
          dispatcher_send [] b_hold_only .hold =
            { id := b_hold_only.id, action := get_action b_hold_only.actions .hold } :: [])) ∧
      (queue_capacity ≤ ([] : List button_msg).length →
        dispatcher_send [] b_hold_only .hold = []) ∧
      queue_capacity = BUTTON_QUEUE_LEN * BUTTON_NUM_MAX) :=
  ⟨by decide, c6_enqueue_policy [] b_hold_only .hold 7 (by decide)⟩

/-! ### C10 -/

/-- C10: a classified gesture whose action slot has a null function
pointer is not enqueued at all (the queue is unchanged); with a registered
callback the enqueued message is a snapshot of the button id and the
action slot taken at classification time; and the worker invokes only
messages carrying a non-null callback. -/
theorem c10_callback_gating (q : List button_msg) (b : button_t) (t : button_type)
    (m : button_msg) (rest : List button_msg) :
    ((get_action b.actions t).fn = none → dispatcher_send q b t = q) ∧
      (∀ f, (get_action b.actions t).fn = some f → q.length < queue_capacity →
        dispatcher_send q b t =
          (if t = .hold then q ++ [{ id := b.id, action := get_action b.actions t }]
           else { id := b.id, action := get_action b.actions t } :: q)) ∧
      (m.action.fn = none → dispatcher_task_step (m :: rest) = ([], rest)) ∧
      (∀ f, m.action.fn = some f →
        dispatcher_task_step (m :: rest) = ([(f, m.action.arg)], rest)) := by
  refine ⟨fun hn => ?_, fun f hf hroom => ?_, fun hn => ?_, fun f hf => ?_⟩
  · simp only [dispatcher_send, hn]
  · simp only [dispatcher_send, hf, queue_send_back, queue_send_front]
    split <;> simp [hroom]
  · simp only [dispatcher_task_step, hn]
  · simp only [dispatcher_task_step, hf]

/-- A message whose snapshot carries a null callback. -/
def msg_no_fn : button_msg := { id := 0, action := { fn := none, arg := 0 } }

/-- C10 witness: the gating theorem applied to a button with no `Double`
callback and to a message without a callback. -/
theorem c10_callback_gating_witness :
    ((get_action sample_button.actions .double).fn = none →
        dispatcher_send [] sample_button .double = []) ∧
      (∀ f, (get_action sample_button.actions .double).fn = some f →
        ([] : List button_msg).length < queue_capacity →
        dispatcher_send [] sample_button .double =
          (if button_type.double = .hold then
            [] ++ [{ id := sample_button.id, action := get_action sample_button.actions .double }]
           else
            { id := sample_button.id, action := get_action sample_button.actions .double } :: [])) ∧
      (msg_no_fn.action.fn = none → dispatcher_task_step [msg_no_fn] = ([], [])) ∧
      (∀ f, msg_no_fn.action.fn = some f →
        dispatcher_task_step [msg_no_fn] = ([(f, msg_no_fn.action.arg)], [])) :=
  c10_callback_gating [] sample_button .double msg_no_fn []

/-! ### C3 -/

/-- The error outcome of `dispatcher_init` depends only on which shared
resources already exist and on the allocation oracle, not on the registry
contents. -/
lemma dispatcher_init_fst (env : alloc_env) (s : registry_t) :
    (dispatcher_init env s).1 =
      (if !s.queue_present && !env.queue_ok then .no_mem
       else if !s.task_present && !env.task_ok then .no_mem
       else if !s.timer_present && !env.timer_ok then .no_mem
       else .ok) := by
  simp only [dispatcher_init]
  split_ifs <;> simp_all

/-- `dispatcher_init` never touches the registry count or list. -/
lemma dispatcher_init_snd_registry (env : alloc_env) (s : registry_t) :
    (dispatcher_init env s).2.button_num = s.button_num ∧
      (dispatcher_init env s).2.button_list = s.button_list := by
  simp only [dispatcher_init]
  split_ifs <;> simp_all

/-- C3, counterexample: on an empty registry, an `init` whose GPIO
configuration succeeds but whose dispatcher-queue allocation fails returns
the error `fail`, yet the active-button count has changed from 0 to 1 and
the new registry entry remains — the claim's "the registry is left exactly
as it was before the call" does not hold for the shared-resource
allocation failure path (`button_init` returns after a failed
`dispatcher_init` without undoing the slot assignment). -/
theorem c3_init_no_rollback_counterexample :
    (button_init registry_empty sample_button 4 0 env_queue_fail 0).1 = .fail ∧
      (button_init registry_empty sample_button 4 0 env_queue_fail 0).2.button_num = 1 ∧
      (button_init registry_empty sample_button 4 0 env_queue_fail 0).2.button_list.length = 1 ∧
      registry_empty.button_num = 0 := by
  exact ⟨by decide, by decide, by decide, by decide⟩

/-- C3, amended: a failed `init` leaves the registry unchanged on the
registry-full path and on both GPIO-configuration failure paths (the slot
taken at the start of the call is released and the count restored); on a
shared-resource allocation failure, however, the call reports `fail` but
the new registry entry remains: the count is incremented and the new slot
still holds the caller's button. -/
theorem c3_init_error_paths (s : registry_t) (b0 : button_t) (gpio_num gpio_port : Nat)
    (env : alloc_env) (now : Nat) (hlen : s.button_list.length = s.button_num) :
    (BUTTON_NUM_MAX ≤ s.button_num →
      button_init s b0 gpio_num gpio_port env now = (.num_max, s)) ∧
      (s.button_num < BUTTON_NUM_MAX → env.gpio_result = .invalid_arg →
        button_init s b0 gpio_num gpio_port env now = (.invalid_param, s)) ∧
      (s.button_num < BUTTON_NUM_MAX → env.gpio_result = .other_fail →
        button_init s b0 gpio_num gpio_port env now = (.fail, s)) ∧
      (s.button_num < BUTTON_NUM_MAX → env.gpio_result = .ok →
        (dispatcher_init env s).1 ≠ .ok →
        (button_init s b0 gpio_num gpio_port env now).1 = .fail ∧
          (button_init s b0 gpio_num gpio_port env now).2.button_num = s.button_num + 1 ∧
          ((button_init s b0 gpio_num gpio_port env now).2.button_list[s.button_num]?).map
              button_t.addr = some b0.addr) := by
  refine ⟨fun h => ?_, fun h hg => ?_, fun h hg => ?_, fun h hg hd => ?_⟩
  · simp only [button_init, ge_iff_le]
    rw [if_pos h]
  · have hne : ¬BUTTON_NUM_MAX ≤ s.button_num := by omega
    simp [button_init, ge_iff_le, hne, hg, generic_gpio_init]
  · have hne : ¬BUTTON_NUM_MAX ≤ s.button_num := by omega
    simp [button_init, ge_iff_le, hne, hg, generic_gpio_init]
  · have hne : ¬BUTTON_NUM_MAX ≤ s.button_num := by omega
    simp only [button_init, ge_iff_le, hne, if_false, hg, generic_gpio_init]
    rw [dispatcher_init_fst] at hd
    rw [dispatcher_init_fst]
    dsimp only
    rw [if_pos hd]
    refine ⟨rfl, ?_, ?_⟩
    · rw [(dispatcher_init_snd_registry env _).1]
    · rw [(dispatcher_init_snd_registry env _).2]
      simp [init_button, ← hlen, List.getElem?_concat_length]

/-- C3 witness: the amended theorem applied to the empty registry with a
failing queue allocation. -/
theorem c3_init_error_paths_witness :
    (button_init registry_empty sample_button 4 0 env_queue_fail 0).1 = .fail ∧
      (button_init registry_empty sample_button 4 0 env_queue_fail 0).2.button_num
          = registry_empty.button_num + 1 ∧
      ((button_init registry_empty sample_button 4 0
            env_queue_fail 0).2.button_list[registry_empty.button_num]?).map button_t.addr
          = some sample_button.addr :=
  (c3_init_error_paths registry_empty sample_button 4 0 env_queue_fail 0 rfl).2.2.2
    (by decide) rfl (by decide)

/-! ### Reachability invariant shared by C4 and C9 -/

/-- Invariant of every reachable button state: the two debounce timeouts
agree, and the hold timeout stays within the validated `[100, 1000]`
range. -/
lemma reachable_cfg_invariant (b : button_t) (hb : button_reachable b) :
    b.cfg.debounce_fw_ms = b.cfg.debounce_bw_ms ∧
      100 ≤ b.cfg.hold_ms ∧ b.cfg.hold_ms ≤ 1000 := by
  induction hb with
  | init_b b0 id gpio_num gpio_port level now =>
    refine ⟨rfl, ?_, ?_⟩ <;> simp [init_button, default_cfg, BUTTON_HOLD_MS_DEFAULT]
  | set_t b timing ms hb ih =>
    simp only [button_set_timing]
    split_ifs <;> simp_all
  | reg b t fn arg hb ih =>
    cases fn <;> simp_all [button_register_action]
  | unreg b t hb ih =>
    simp_all [button_unregister_action]
  | tick b level now hb ih =>
    simp_all [button_tick]

/-! ### C9 -/

/-- C9: in every reachable button state the forward and backward debounce
thresholds are equal (both start at the 40 ms default and only the
debounce case of `button_set_timing` writes them, to the same value), so
the `Debounce → Pressed` and `Debounce → Idle` timeout guards of the FSM
table always carry the same duration. -/
theorem c9_debounce_symmetry (b : button_t) (hb : button_reachable b) :
    b.cfg.debounce_fw_ms = b.cfg.debounce_bw_ms ∧
      ∀ tr ∈ fsm_table b.cfg, tr.src = .debounce → tr.timeout = b.cfg.debounce_fw_ms := by
  obtain ⟨heq, -, -⟩ := reachable_cfg_invariant b hb
  refine ⟨heq, ?_⟩
  intro tr htr hsrc
  simp only [fsm_table, fsm_set_table_eq, code_transition_table, List.mem_cons,
    List.not_mem_nil, or_false] at htr
  rcases htr with rfl | rfl | rfl | rfl | rfl | rfl | rfl | rfl | rfl | rfl | rfl | rfl <;>
    simp_all

/-- A concrete freshly initialized button. -/
def b_init_sample : button_t := init_button sample_button 0 4 0 1 0

/-- C9 witness: the symmetry theorem applied to a freshly initialized
button. -/
theorem c9_debounce_symmetry_witness :
    b_init_sample.cfg.debounce_fw_ms = b_init_sample.cfg.debounce_bw_ms ∧
      ∀ tr ∈ fsm_table b_init_sample.cfg, tr.src = .debounce →
        tr.timeout = b_init_sample.cfg.debounce_fw_ms :=
  c9_debounce_symmetry b_init_sample (button_reachable.init_b sample_button 0 4 0 1 0)

/-! ### C4 -/

/-- C4: on an initialized (reachable) button, `button_set_timing` succeeds
and updates exactly the corresponding timing field when the value lies
inside the documented bounds for the kind — debounce
`[2 × tick, 100]` ms written to both debounce cells, hold `[100, 1000]`
ms, long total-from-press `[1000, 10000]` ms stored as the total minus the
current hold value, wait-double `[50, 500]` ms — and returns
`invalid_param` leaving the button (every timing field included)
unchanged when the value is out of bounds or the kind is out of range. -/
theorem c4_set_timing_bounds (b : button_t) (timing ms : Nat) (hb : button_reachable b)
    (hms : ms < 4294967296) :
    (timing = 0 →
      ((BUTTON_TICK_MS * 2 ≤ ms ∧ ms ≤ 100) →
        button_set_timing b timing ms =
          (.ok, { b with cfg := { b.cfg with debounce_fw_ms := ms, debounce_bw_ms := ms } })) ∧
      ((ms < BUTTON_TICK_MS * 2 ∨ 100 < ms) →
        button_set_timing b timing ms = (.invalid_param, b))) ∧
      (timing = 1 →
        ((100 ≤ ms ∧ ms ≤ 1000) →
          button_set_timing b timing ms =
            (.ok, { b with cfg := { b.cfg with hold_ms := ms } })) ∧
        ((ms < 100 ∨ 1000 < ms) → button_set_timing b timing ms = (.invalid_param, b))) ∧
      (timing = 2 →
        ((1000 ≤ ms ∧ ms ≤ 10000) →
          button_set_timing b timing ms =
            (.ok, { b with cfg := { b.cfg with long_ms := ms - b.cfg.hold_ms } })) ∧
        ((ms < 1000 ∨ 10000 < ms) → button_set_timing b timing ms = (.invalid_param, b))) ∧
      (timing = 3 →
        ((50 ≤ ms ∧ ms ≤ 500) →
          button_set_timing b timing ms =
            (.ok, { b with cfg := { b.cfg with wait_double_ms := ms } })) ∧
        ((ms < 50 ∨ 500 < ms) → button_set_timing b timing ms = (.invalid_param, b))) ∧
      (4 ≤ timing → button_set_timing b timing ms = (.invalid_param, b)) := by
  obtain ⟨-, hh1, hh2⟩ := reachable_cfg_invariant b hb
  refine ⟨fun ht => ⟨fun hin => ?_, fun hout => ?_⟩, fun ht => ⟨fun hin => ?_, fun hout => ?_⟩,
    fun ht => ⟨fun hin => ?_, fun hout => ?_⟩, fun ht => ⟨fun hin => ?_, fun hout => ?_⟩,
    fun ht => ?_⟩
  · subst ht
    simp only [button_set_timing]
    norm_num
    intros; exfalso; omega
  · subst ht
    simp only [button_set_timing]
    norm_num
    intros; exfalso; omega
  · subst ht
    simp only [button_set_timing]
    norm_num
    intros; exfalso; omega
  · subst ht
    simp only [button_set_timing]
    norm_num
    intros; exfalso; omega
  · subst ht
    have hs : u32_sub ms b.cfg.hold_ms = ms - b.cfg.hold_ms := by
      unfold u32_sub
      omega
    simp only [button_set_timing, hs]
    norm_num
    intros; exfalso; omega
  · subst ht
    simp only [button_set_timing]
    norm_num
    intros; exfalso; omega
  · subst ht
    simp only [button_set_timing]
    norm_num
    intros; exfalso; omega
  · subst ht
    simp only [button_set_timing]
    norm_num
    intros; exfalso; omega
  · simp only [button_set_timing]
    rw [if_neg (by omega), if_neg (by omega), if_neg (by omega), if_neg (by omega)]

/-- C4 witness: setting the long-press total to 3000 ms on a freshly
initialized button stores 3000 minus the current hold value. -/
theorem c4_set_timing_bounds_witness :
    button_set_timing b_init_sample 2 3000 =
      (.ok, { b_init_sample with
        cfg := { b_init_sample.cfg with long_ms := 3000 - b_init_sample.cfg.hold_ms } }) :=
  ((c4_set_timing_bounds b_init_sample 2 3000
      (button_reachable.init_b sample_button 0 4 0 1 0) (by decide)).2.2.1 rfl).1
    (by decide)

/-! ### C7 -/

lemma renumber_from_length (i : Nat) (l : List button_t) :
    (renumber_from i l).length = l.length := by
  induction l generalizing i with
  | nil => rfl
  | cons b bs ih => simp [renumber_from, ih]

lemma renumber_from_getElem? (i j : Nat) (l : List button_t) :
    (renumber_from i l)[j]? = (l[j]?).map fun b => { b with id := i + j } := by
  induction l generalizing i j with
  | nil => simp [renumber_from]
  | cons b bs ih =>
    cases j with
    | zero => simp [renumber_from]
    | succ j =>
      have h : i + 1 + j = i + (j + 1) := by omega
      simp [renumber_from, ih, h]

/-- C7: on a well-formed registry of `k ≥ 2` buttons (the list holds
exactly the active buttons and slot `j` carries id `j`), `deinit` of the
occupant of a non-last slot `i` succeeds, shifts every subsequent button
one slot left renumbering its id to its new index — leaving all its other
fields (FSM state, timings, actions) untouched — so ids stay contiguous;
the shared queue, worker and timer and the pending queue contents are
untouched; and a null handle, or a handle that is not the occupant of its
claimed slot, yields `invalid_param` with the state unchanged. -/
theorem c7_deinit_compaction (s : registry_t) (me : button_t) (i : Nat)
    (hlen : s.button_list.length = s.button_num)
    (hids : ∀ j, j < s.button_num → (s.button_list[j]?).map button_t.id = some j)
    (hk : 2 ≤ s.button_num)
    (hslot : s.button_list[i]? = some me)
    (hid : me.id = i)
    (hnl : i + 1 < s.button_num) :
    (button_deinit s (some me)).1 = .ok ∧
      (button_deinit s (some me)).2.button_num = s.button_num - 1 ∧
      (button_deinit s (some me)).2.button_list.length = s.button_num - 1 ∧
      (∀ j, j < i → (button_deinit s (some me)).2.button_list[j]? = s.button_list[j]?) ∧
      (∀ j, i ≤ j → j + 1 < s.button_num →
        (button_deinit s (some me)).2.button_list[j]? =
          (s.button_list[j + 1]?).map fun b => { b with id := j }) ∧
      (∀ j, j < s.button_num - 1 →
        ((button_deinit s (some me)).2.button_list[j]?).map button_t.id = some j) ∧
      (button_deinit s (some me)).2.queue_present = s.queue_present ∧
      (button_deinit s (some me)).2.task_present = s.task_present ∧
      (button_deinit s (some me)).2.timer_present = s.timer_present ∧
      (button_deinit s (some me)).2.queue = s.queue ∧
      button_deinit s none = (.invalid_param, s) ∧
      (∀ h2 : button_t, (s.button_list[h2.id]?).map button_t.addr ≠ some h2.addr →
        button_deinit s (some h2) = (.invalid_param, s)) := by
  subst hid
  have hlt : me.id < s.button_num := by omega
  have hv1 : ¬me.id ≥ s.button_num := by omega
  have hv2 : ¬((s.button_list[me.id]?).map button_t.addr ≠ some me.addr) := by
    rw [hslot]
    simp
  have hn0 : ¬(s.button_num - 1 = 0) := by omega
  have htl : (s.button_list.take me.id).length = me.id := by
    rw [List.length_take]
    omega
  have hred : button_deinit s (some me) =
      (.ok, { s with
        button_num := s.button_num - 1
        button_list :=
          s.button_list.take me.id ++
            renumber_from me.id (s.button_list.drop (me.id + 1)) }) := by
    simp only [button_deinit]
    rw [if_neg hv1, if_neg hv2, if_neg hn0]
  have hlow : ∀ j, j < me.id →
      (button_deinit s (some me)).2.button_list[j]? = s.button_list[j]? := by
    intro j hj
    rw [hred]
    dsimp only
    rw [List.getElem?_append_left (by omega), List.getElem?_take_of_lt hj]
  have hmid : ∀ j, me.id ≤ j → j + 1 < s.button_num →
      (button_deinit s (some me)).2.button_list[j]? =
        (s.button_list[j + 1]?).map fun b => { b with id := j } := by
    intro j hij hj1
    rw [hred]
    dsimp only
    rw [List.getElem?_append_right (by omega)]
    rw [renumber_from_getElem?, List.getElem?_drop, htl]
    have h1 : me.id + 1 + (j - me.id) = j + 1 := by omega
    have h2 : me.id + (j - me.id) = j := by omega
    rw [h1, h2]
  have hlength : (button_deinit s (some me)).2.button_list.length = s.button_num - 1 := by
    rw [hred]
    dsimp only
    rw [List.length_append, renumber_from_length, List.length_drop, htl]
    omega
  refine ⟨by rw [hred], by rw [hred], hlength, hlow, hmid, ?_, by rw [hred], by rw [hred],
    by rw [hred], by rw [hred], rfl, ?_⟩
  · intro j hj
    rcases Nat.lt_or_ge j me.id with hc | hc
    · rw [hlow j hc]
      exact hids j (by omega)
    · rw [hmid j hc (by omega)]
      have hj1 := hids (j + 1) (by omega)
      cases hb : s.button_list[j + 1]? with
      | none => rw [hb] at hj1; simp at hj1
      | some b => simp [hb]
  · intro h2 hmis
    by_cases hc : h2.id ≥ s.button_num
    · simp only [button_deinit]
      rw [if_pos hc]
    · simp only [button_deinit]
      rw [if_neg hc, if_pos hmis]

/-- The first button of `two_registry`. -/
def bA : button_t := { sample_button with id := 0, addr := 1000 }

/-- C7 witness: removing the first of two registered buttons succeeds,
leaves one button, and keeps ids contiguous. -/
theorem c7_deinit_compaction_witness :
    (button_deinit two_registry (some bA)).1 = .ok ∧
      (button_deinit two_registry (some bA)).2.button_num = two_registry.button_num - 1 ∧
      (button_deinit two_registry (some bA)).2.button_list.length
          = two_registry.button_num - 1 ∧
      ∀ j, j < two_registry.button_num - 1 →
        ((button_deinit two_registry (some bA)).2.button_list[j]?).map button_t.id = some j :=
  (fun h => ⟨h.1, h.2.1, h.2.2.1, h.2.2.2.2.2.1⟩)
    (c7_deinit_compaction two_registry bA 0 (by decide) (by decide) (by decide) (by decide)
      (by decide) (by decide))
